import Mathlib

/-!
Shallow embedding of the ex-lite Express helper layer: the JSON value model,
the ApiRes response envelope, the HttpError taxonomy with its status-derived
names, the handler wrapper with its result dispatch, the validation
middleware, the terminal error handler and the controller method resolver.
Each definition is translated from the TypeScript sources in src/.
-/

namespace ExLite

/-- Model of a JavaScript runtime value as far as this layer inspects one:
undefined, null, booleans, (integer) numbers, strings, arrays and plain
objects given as ordered field lists. -/
inductive JSValue where
  | undef
  | null
  | bool (b : Bool)
  | num (n : Int)
  | str (s : String)
  | arr (elems : List JSValue)
  | obj (fields : List (String × JSValue))

/-- JavaScript truthiness for the values of the model: undefined, null,
false, 0 and the empty string are falsy; every array and object is truthy. -/
def truthy : JSValue → Bool
  | .undef => false
  | .null => false
  | .bool b => b
  | .num n => n != 0
  | .str s => s != ""
  | .arr _ => true
  | .obj _ => true

/-- JavaScript object-spread update, modelling the object literal that
spreads a base object and then writes one key: the base fields keep their
order, an existing key is overwritten in place, a new key is appended. -/
def setField (fields : List (String × JSValue)) (key : String) (v : JSValue) :
    List (String × JSValue) :=
  match fields with
  | [] => [(key, v)]
  | p :: rest =>
      if p.1 = key then (key, v) :: rest else p :: setField rest key v

/-- The numeric-code to constant-name mapping of the http-status registry
for the range 400..511, as read through the bracket access of the form
status concatenated with the NAME suffix. Codes without an entry (419, 420,
427, 430, 432..450, 452..499) yield undefined there, modelled as a missing
key of this table. -/
def statusNameTable : List (Int × String) :=
  [(400, "BAD_REQUEST"), (401, "UNAUTHORIZED"), (402, "PAYMENT_REQUIRED"),
   (403, "FORBIDDEN"), (404, "NOT_FOUND"), (405, "METHOD_NOT_ALLOWED"),
   (406, "NOT_ACCEPTABLE"), (407, "PROXY_AUTHENTICATION_REQUIRED"),
   (408, "REQUEST_TIMEOUT"), (409, "CONFLICT"), (410, "GONE"),
   (411, "LENGTH_REQUIRED"), (412, "PRECONDITION_FAILED"),
   (413, "REQUEST_ENTITY_TOO_LARGE"), (414, "REQUEST_URI_TOO_LONG"),
   (415, "UNSUPPORTED_MEDIA_TYPE"), (416, "REQUESTED_RANGE_NOT_SATISFIABLE"),
   (417, "EXPECTATION_FAILED"), (418, "IM_A_TEAPOT"), (421, "MISDIRECTED_REQUEST"),
   (422, "UNPROCESSABLE_ENTITY"), (423, "LOCKED"), (424, "FAILED_DEPENDENCY"),
   (425, "TOO_EARLY"), (426, "UPGRADE_REQUIRED"), (428, "PRECONDITION_REQUIRED"),
   (429, "TOO_MANY_REQUESTS"), (431, "REQUEST_HEADER_FIELDS_TOO_LARGE"),
   (451, "UNAVAILABLE_FOR_LEGAL_REASONS"), (500, "INTERNAL_SERVER_ERROR"),
   (501, "NOT_IMPLEMENTED"), (502, "BAD_GATEWAY"), (503, "SERVICE_UNAVAILABLE"),
   (504, "GATEWAY_TIMEOUT"), (505, "HTTP_VERSION_NOT_SUPPORTED"),
   (506, "VARIANT_ALSO_NEGOTIATES"), (507, "INSUFFICIENT_STORAGE"),
   (508, "LOOP_DETECTED"), (509, "BANDWIDTH_LIMIT_EXCEEDED"),
   (510, "NOT_EXTENDED"), (511, "NETWORK_AUTHENTICATION_REQUIRED")]

/-- Lookup of a key on an ordered association list, modelling a JavaScript
property access that may yield undefined (none). -/
def jsLookup (key : Int) : List (Int × String) → Option String
  | [] => none
  | p :: rest => if key = p.1 then some p.2 else jsLookup key rest

/-- Models String.prototype.toLowerCase on the ASCII constant names that
occur in the registry. -/
def jsToLowerCase (s : String) : String :=
  String.mk (s.toList.map Char.toLower)

/-- Models the global regex replacement of every underscore by a space. -/
def replaceUnderscores (s : String) : String :=
  String.mk (s.toList.map fun c => if c = '_' then ' ' else c)

/-- A regex word character: letters, digits and the underscore. -/
def isWordChar (c : Char) : Bool :=
  c.isAlphanum || c = '_'

/-- One pass over the characters that uppercases every word character
standing at a word boundary, i.e. whose predecessor is not a word
character; the flag records whether the previous character was one. -/
def upperWordStarts (prevWord : Bool) : List Char → List Char
  | [] => []
  | c :: cs =>
      (if isWordChar c && !prevWord then c.toUpper else c) ::
        upperWordStarts (isWordChar c) cs

/-- Models the global regex replacement that uppercases each word start. -/
def titleCaseWords (s : String) : String :=
  String.mk (upperWordStarts false s.toList)

/-- A regex whitespace character as it can occur in the registry names. -/
def jsIsWhitespace (c : Char) : Bool :=
  c = ' ' || c = '\t' || c = '\n' || c = '\r'

/-- Models the global regex replacement of whitespace runs by nothing,
which removes every whitespace character. -/
def removeWhitespace (s : String) : String :=
  String.mk (s.toList.filter fun c => !jsIsWhitespace c)

/-- Models String.prototype.endsWith. -/
def jsEndsWith (s pat : String) : Bool :=
  pat.toList.isSuffixOf s.toList

/-- The string pipeline of getErrorName applied to a looked-up registry
name: lower-case, underscores to spaces, title-case each word, drop the
spaces, and append the Error suffix unless already present. -/
def formatErrorName (raw : String) : String :=
  let name := removeWhitespace (titleCaseWords (replaceUnderscores (jsToLowerCase raw)))
  if jsEndsWith name "Error" then name else name ++ "Error"

/-- getErrorName from src/src/errors.ts: statuses outside 400..511 yield
the literal HttpError; otherwise the registry name is looked up and piped
through the case transformation. A missing registry entry makes the
toLowerCase call throw a TypeError, modelled as none. -/
def getErrorName (status : Int) : Option String :=
  if status < 400 ∨ status > 511 then some "HttpError"
  else (jsLookup status statusNameTable).map formatErrorName

/-- The message argument of an HttpError: a string or a list of strings. -/
inductive BodyMessage where
  | str (s : String)
  | list (msgs : List String)

/-- The JSON value a BodyMessage contributes to the error body. -/
def BodyMessage.toJS : BodyMessage → JSValue
  | .str s => .str s
  | .list msgs => .arr (msgs.map JSValue.str)

/-- The state of a constructed HttpError: the constructor arguments plus
the two fields the constructor computes (name and display message). -/
structure HttpError where
  msg : BodyMessage
  status : Int
  detail : JSValue
  name : String
  message : String

/-- The HttpError constructor from src/src/errors.ts. It derives the name
from the status and sets the display message to msg when msg is a plain
string and to the name otherwise. The name derivation can throw for an
in-range status without a registry entry, so construction is fallible and
none models the thrown TypeError. The undef detail models the omitted
optional argument. -/
def HttpError.make (msg : BodyMessage) (status : Int) (detail : JSValue) :
    Option HttpError :=
  (getErrorName status).map fun nm =>
    { msg := msg, status := status, detail := detail, name := nm,
      message := match msg with | .str s => s | .list _ => nm }

/-- HttpError.toJson: status, error name and message, with the detail key
appended only when the stored detail is truthy. -/
def HttpError.toJson (e : HttpError) : JSValue :=
  .obj ([("status", JSValue.num e.status), ("error", JSValue.str e.name),
         ("message", e.msg.toJS)] ++
    (if truthy e.detail then [("detail", e.detail)] else []))

/-- The BadRequestError subtype fixes status 400. -/
def BadRequestError.make (msg : BodyMessage) (detail : JSValue) : Option HttpError :=
  HttpError.make msg 400 detail

/-- The InternalServerError subtype fixes status 500. -/
def InternalServerError.make (msg : BodyMessage) (detail : JSValue) : Option HttpError :=
  HttpError.make msg 500 detail

/-- Whether a value is the undefined value; a JavaScript default parameter
fires exactly on undefined arguments. -/
def JSValue.isUndef : JSValue → Bool
  | .undef => true
  | _ => false

/-- The ApiRes response envelope: result payload, status and message. -/
structure ApiRes where
  result : JSValue
  status : Int
  message : String

/-- The ApiRes constructor (src/src/api-res.ts): an undefined result
argument falls back to the default empty object. Status and message are
passed explicitly by every caller modelled here. -/
def ApiRes.make (result : JSValue) (status : Int) (message : String) : ApiRes :=
  { result := if result.isUndef then JSValue.obj [] else result,
    status := status, message := message }

/-- ApiRes.toJson returns the status, message, result object. -/
def ApiRes.toJson (r : ApiRes) : JSValue :=
  .obj [("status", JSValue.num r.status), ("message", JSValue.str r.message),
        ("result", r.result)]

/-- The static ok constructor fixes status 200; none models an omitted
message argument, which falls back to the default of the cited revision. -/
def ApiRes.ok (result : JSValue) (message : Option String) : ApiRes :=
  ApiRes.make result 200 (message.getD "Request processed successfully")

/-- The static created constructor fixes status 201. -/
def ApiRes.created (result : JSValue) (message : Option String) : ApiRes :=
  ApiRes.make result 201 (message.getD "Resource created successfully")

/-- The static paginated constructor spreads meta and adds the data field,
fixing status 200. -/
def ApiRes.paginated (data : JSValue) (meta : List (String × JSValue))
    (message : Option String) : ApiRes :=
  ApiRes.make (JSValue.obj (setField meta "data" data)) 200
    (message.getD "Data retrieved successfully")

/-- What invoking a wrapped handler can yield, as the adapter observes it:
an immediate return value, a synchronous throw, or a promise together with
the way it eventually settles (fulfilled or rejected). -/
inductive HandlerOutcome (ε α : Type) where
  | ret (v : α)
  | thrown (e : ε)
  | promised (settled : Except ε α)

/-- The shapes a settled handler value can take for the result dispatch:
an ApiRes envelope, the response object itself, or any other value. -/
inductive RetVal where
  | envelope (a : ApiRes)
  | resChannel
  | value (v : JSValue)

/-- The writes the adapter can perform on the response channel. A send
action uses the framework default content negotiation and leaves the
status at the framework default 200. -/
inductive ResAction where
  | setStatus (status : Int)
  | json (body : JSValue)
  | send (body : JSValue)

/-- handleResult from src/src/factory.ts: an ApiRes envelope is written as
its status plus its toJson body; any other value that is truthy and is not
the response object itself is sent directly; otherwise nothing is
written. -/
def handleResult : RetVal → List ResAction
  | .envelope a => [.setStatus a.status, .json a.toJson]
  | .resChannel => []
  | .value v => if truthy v then [.send v] else []

/-- One part of the request a middleware can validate and replace. -/
inductive ReqPart where
  | body
  | query
  | params

/-- The express request as this layer touches it: its three parsable
parts. -/
structure Req where
  body : JSValue
  query : JSValue
  params : JSValue

/-- Dynamic read of a request part. -/
def Req.get (req : Req) : ReqPart → JSValue
  | .body => req.body
  | .query => req.query
  | .params => req.params

/-- Dynamic replacement of a request part. -/
def Req.set (req : Req) : ReqPart → JSValue → Req
  | .body, v => { req with body := v }
  | .query, v => { req with query := v }
  | .params, v => { req with params := v }

/-- The property name of a request part as spliced into messages. -/
def ReqPart.partName : ReqPart → String
  | .body => "body"
  | .query => "query"
  | .params => "params"

/-- A fault reaching the terminal error handler: either a constructed
HttpError instance, or any other error-like value carrying a message and a
stack. -/
inductive Fault where
  | http (e : HttpError)
  | other (message : String) (stack : JSValue)

/-- wrapper from src/src/factory.ts, observed on one request: a
synchronous throw is forwarded to the continuation by the catch block; a
returned promise dispatches its fulfillment value through handleResult and
forwards its rejection reason to the continuation; an immediate value is
dispatched directly. The first component lists the response writes, the
second the continuation invocations. -/
def wrapper {ε : Type} (func : Req → HandlerOutcome ε RetVal) (req : Req) :
    List ResAction × List ε :=
  match func req with
  | .ret v => (handleResult v, [])
  | .thrown e => ([], [e])
  | .promised (.ok v) => (handleResult v, [])
  | .promised (.error e) => ([], [e])

/-- The non-throwing parse result of a zod schema: the parsed data on
success, the structured error list on failure. -/
abbrev SafeParseResult := Except (List JSValue) JSValue

/-- A schema, modelled by its readonly safeParse behaviour. -/
abbrev Schema := JSValue → SafeParseResult

/-- validateFn from src/src/guard.ts: parse the named request part; on
success replace it and call the continuation; on failure answer with the
status and JSON body of a BadRequestError carrying the error list and do
not call the continuation. The Boolean records whether the continuation
ran; none models a thrown construction error, which cannot occur at
status 400. -/
def validateFn (schema : Schema) (type : ReqPart) (req : Req) :
    Option (Req × List ResAction × Bool) :=
  match schema (req.get type) with
  | .ok data => some (req.set type data, [], true)
  | .error errors =>
      (BadRequestError.make
          (.str ("req." ++ type.partName ++ " fields validation error"))
          (.arr errors)).map
        fun err => (req, [.setStatus err.status, .json err.toJson], false)

/-- errorHandler from the revision taking the isDev flag: an HttpError
instance answers with its own status and toJson body; any other fault is
wrapped as an InternalServerError from its message, with the stack as
detail in development mode and null otherwise. The second component lists
continuation invocations, which never happen; none models a thrown
construction error, which cannot occur at status 500. -/
def errorHandler (isDev : Bool) (err : Fault) :
    Option (List ResAction × List Fault) :=
  match err with
  | .http e => some ([.setStatus e.status, .json e.toJson], [])
  | .other message stack =>
      (InternalServerError.make (.str message)
          (if isDev then stack else JSValue.null)).map
        fun e => ([.setStatus e.status, .json e.toJson], [])

/-- A member found on a resolved controller instance: an invocable method,
carried as its bound request behaviour, or any non-invocable value. -/
inductive Member where
  | method (h : Req → HandlerOutcome Fault RetVal)
  | plain (v : JSValue)

/-- A controller class together with the members of its resolved
instance; the dependency-injection resolution itself is outside this
model. -/
structure ControllerCls where
  name : String
  members : List (String × Member)

/-- Property lookup of a member on the instance; none models the undefined
result of a missing key. -/
def memberLookup (key : String) : List (String × Member) → Option Member
  | [] => none
  | p :: rest => if key = p.1 then some p.2 else memberLookup key rest

/-- getMethod of createController from src/src/factory.ts: a member that
is not a function (missing or non-invocable) throws the configuration
error naming the key and the class; an invocable member is bound and
passed through the wrapper. -/
def getMethod (cls : ControllerCls) (key : String) :
    Except String (Req → List ResAction × List Fault) :=
  match memberLookup key cls.members with
  | some (Member.method h) => Except.ok (wrapper h)
  | _ => Except.error ("Handler " ++ key ++ " is not a function of " ++ cls.name)

/-- A sample empty request used by the concrete witnesses. -/
def sampleReq : Req :=
  { body := JSValue.undef, query := JSValue.undef, params := JSValue.undef }

/-- A sample schema: accepts the number 1, normalising it to 2, and
rejects everything else with one structured error. -/
def sampleSchema : Schema := fun v =>
  match v with
  | JSValue.num 1 => Except.ok (JSValue.num 2)
  | _ => Except.error [JSValue.str "invalid"]

/-- A sample resolved controller with one non-invocable member and one
method. -/
def sampleController : ControllerCls :=
  { name := "UserController",
    members :=
      [("count", Member.plain (JSValue.num 3)),
       ("list", Member.method fun _ => HandlerOutcome.ret (RetVal.value (JSValue.num 1)))] }

/-- The Boolean check on a derived error name used by the testable
properties: it ends with the Error suffix and contains neither an
underscore nor a space. -/
def errorNameOk (name : String) : Bool :=
  jsEndsWith name "Error" && name.toList.all fun c => c != '_' && c != ' '

/-- A Boolean check that holds of every value of an association list
transfers to every successful lookup. -/
theorem jsLookup_all_of (P : String → Bool) :
    ∀ (l : List (Int × String)), l.all (fun p => P p.2) = true →
      ∀ key raw, jsLookup key l = some raw → P raw = true := by
  intro l
  induction l with
  | nil =>
      intro _ key raw h
      simp [jsLookup] at h
  | cons p rest ih =>
      intro hall key raw h
      rw [List.all_cons, Bool.and_eq_true] at hall
      simp only [jsLookup] at h
      split at h
      · cases h
        exact hall.1
      · exact ih hall.2 key raw h

/-- Constructing an InternalServerError from a plain string message always
succeeds, with the name derived from status 500. -/
theorem internalServerError_make_eq (m : String) (d : JSValue) :
    InternalServerError.make (BodyMessage.str m) d =
      some { msg := BodyMessage.str m, status := 500, detail := d,
             name := "InternalServerError", message := m } := by
  unfold InternalServerError.make HttpError.make
  rw [show getErrorName 500 = some "InternalServerError" from by decide]
  rfl

/-- Constructing a BadRequestError from a plain string message always
succeeds, with the name derived from status 400. -/
theorem badRequestError_make_eq (m : String) (d : JSValue) :
    BadRequestError.make (BodyMessage.str m) d =
      some { msg := BodyMessage.str m, status := 400, detail := d,
             name := "BadRequestError", message := m } := by
  unfold BadRequestError.make HttpError.make
  rw [show getErrorName 400 = some "BadRequestError" from by decide]
  rfl

/-- C1: whenever the invocation of a wrapped handler throws synchronously
or returns a promise that rejects, the wrapper invokes the continuation
with that exact fault, exactly once, and writes nothing to the response. -/
theorem wrapper_forwards_fault {ε : Type} (func : Req → HandlerOutcome ε RetVal)
    (req : Req) (e : ε)
    (h : func req = HandlerOutcome.thrown e ∨
        func req = HandlerOutcome.promised (Except.error e)) :
    wrapper func req = ([], [e]) := by
  unfold wrapper
  rcases h with h | h <;> rw [h]

/-- C1 witness: a handler that throws synchronously has its fault
forwarded once and nothing written. -/
theorem wrapper_forwards_fault_witness :
    wrapper (fun _ => HandlerOutcome.thrown (Fault.other "boom" (JSValue.str "trace")))
        sampleReq =
      ([], [Fault.other "boom" (JSValue.str "trace")]) :=
  wrapper_forwards_fault _ sampleReq _ (Or.inl rfl)

/-- C6: result dispatch of the wrapped handler. An ApiRes envelope is
written as its status and its toJson body; a truthy non-envelope value
other than the response object is sent through the framework default send,
whose default status is 200; a falsy value or the response object itself
causes no write; and a settled value, immediate or fulfilled, reaches
exactly this dispatch with no continuation call. -/
theorem handleResult_dispatch :
    (∀ a : ApiRes, handleResult (RetVal.envelope a) =
        [ResAction.setStatus a.status, ResAction.json a.toJson]) ∧
    (∀ v : JSValue, truthy v = true →
        handleResult (RetVal.value v) = [ResAction.send v]) ∧
    (∀ v : JSValue, truthy v = false → handleResult (RetVal.value v) = []) ∧
    handleResult RetVal.resChannel = [] ∧
    (∀ (func : Req → HandlerOutcome Fault RetVal) (req : Req) (v : RetVal),
        func req = HandlerOutcome.ret v ∨
          func req = HandlerOutcome.promised (Except.ok v) →
        wrapper func req = (handleResult v, [])) := by
  refine ⟨fun a => rfl, ?_, ?_, rfl, ?_⟩
  · intro v hv
    simp [handleResult, hv]
  · intro v hv
    simp [handleResult, hv]
  · intro func req v h
    unfold wrapper
    rcases h with h | h <;> rw [h]

/-- C6 witness: a truthy plain value is sent, a falsy one is not, and an
immediately returned value reaches the dispatch. -/
theorem handleResult_dispatch_witness :
    handleResult (RetVal.value (JSValue.num 5)) = [ResAction.send (JSValue.num 5)] ∧
    handleResult (RetVal.value JSValue.null) = [] ∧
    @wrapper Fault (fun _ => HandlerOutcome.ret (RetVal.value (JSValue.num 5))) sampleReq =
      ([ResAction.send (JSValue.num 5)], []) := by
  refine ⟨handleResult_dispatch.2.1 _ rfl, handleResult_dispatch.2.2.1 _ rfl, ?_⟩
  rw [handleResult_dispatch.2.2.2.2 _ sampleReq (RetVal.value (JSValue.num 5)) (Or.inl rfl)]
  rfl

/-- C2: the terminal error handler writes the own status and toJson body
of an HttpError fault; any other fault is answered with status 500 and the
body of an InternalServerError whose message is the fault message, whose
detail is the fault stack exactly in development mode, and it never
forwards the fault further. -/
theorem errorHandler_spec :
    (∀ (isDev : Bool) (e : HttpError),
        errorHandler isDev (Fault.http e) =
          some ([ResAction.setStatus e.status, ResAction.json e.toJson], [])) ∧
    (∀ (message s : String), s ≠ "" →
        errorHandler true (Fault.other message (JSValue.str s)) =
          some ([ResAction.setStatus 500,
            ResAction.json (JSValue.obj
              [("status", JSValue.num 500), ("error", JSValue.str "InternalServerError"),
               ("message", JSValue.str message), ("detail", JSValue.str s)])], [])) ∧
    (∀ (message : String) (stack : JSValue),
        errorHandler false (Fault.other message stack) =
          some ([ResAction.setStatus 500,
            ResAction.json (JSValue.obj
              [("status", JSValue.num 500), ("error", JSValue.str "InternalServerError"),
               ("message", JSValue.str message)])], [])) := by
  refine ⟨fun isDev e => rfl, ?_, ?_⟩
  · intro message s hs
    have hbs : (s != "") = true := bne_iff_ne.mpr hs
    simp [errorHandler, InternalServerError.make, HttpError.make,
      show getErrorName 500 = some "InternalServerError" from by decide,
      HttpError.toJson, BodyMessage.toJS, truthy, hbs]
  · intro message stack
    simp [errorHandler, InternalServerError.make, HttpError.make,
      show getErrorName 500 = some "InternalServerError" from by decide,
      HttpError.toJson, BodyMessage.toJS, truthy]

/-- C2 witness: an HttpError fault is answered with its own status and
body, and an unknown fault with a nonempty stack is answered with the
wrapped InternalServerError body, with and without development mode. -/
theorem errorHandler_spec_witness :
    errorHandler true (Fault.http
        { msg := BodyMessage.str "nope", status := 404, detail := JSValue.undef,
          name := "NotFoundError", message := "nope" }) =
      some ([ResAction.setStatus 404,
        ResAction.json (JSValue.obj
          [("status", JSValue.num 404), ("error", JSValue.str "NotFoundError"),
           ("message", JSValue.str "nope")])], []) ∧
    errorHandler true (Fault.other "boom" (JSValue.str "trace")) =
      some ([ResAction.setStatus 500,
        ResAction.json (JSValue.obj
          [("status", JSValue.num 500), ("error", JSValue.str "InternalServerError"),
           ("message", JSValue.str "boom"), ("detail", JSValue.str "trace")])], []) ∧
    errorHandler false (Fault.other "boom" (JSValue.str "trace")) =
      some ([ResAction.setStatus 500,
        ResAction.json (JSValue.obj
          [("status", JSValue.num 500), ("error", JSValue.str "InternalServerError"),
           ("message", JSValue.str "boom")])], []) := by
  refine ⟨?_, ?_, ?_⟩
  · rw [errorHandler_spec.1 true _]
    rfl
  · exact errorHandler_spec.2.1 "boom" "trace" (by decide)
  · exact errorHandler_spec.2.2 "boom" (JSValue.str "trace")

/-- C3: validation middleware. A failing parse writes status 400 and the
BadRequestError JSON whose error field is BadRequestError and whose detail
is the structured error list, and never calls the continuation; a
successful parse replaces the request part with the parsed data and calls
the continuation. -/
theorem validateFn_spec :
    (∀ (schema : Schema) (type : ReqPart) (req : Req) (data : JSValue),
        schema (req.get type) = Except.ok data →
        validateFn schema type req = some (req.set type data, [], true)) ∧
    (∀ (schema : Schema) (type : ReqPart) (req : Req) (errors : List JSValue),
        schema (req.get type) = Except.error errors →
        validateFn schema type req =
          some (req, [ResAction.setStatus 400,
            ResAction.json (JSValue.obj
              [("status", JSValue.num 400), ("error", JSValue.str "BadRequestError"),
               ("message", JSValue.str ("req." ++ type.partName ++ " fields validation error")),
               ("detail", JSValue.arr errors)])], false)) := by
  constructor
  · intro schema type req data h
    unfold validateFn
    rw [h]
  · intro schema type req errors h
    unfold validateFn
    rw [h]
    simp only [badRequestError_make_eq, Option.map_some']
    rfl

/-- C3 witness: the sample schema accepts the body value 1, replacing it
with the parsed 2 and calling the continuation, and rejects the undefined
body with the 400 body and no continuation call. -/
theorem validateFn_spec_witness :
    validateFn sampleSchema ReqPart.body
        { body := JSValue.num 1, query := JSValue.undef, params := JSValue.undef } =
      some ({ body := JSValue.num 2, query := JSValue.undef, params := JSValue.undef },
        [], true) ∧
    validateFn sampleSchema ReqPart.body sampleReq =
      some (sampleReq, [ResAction.setStatus 400,
        ResAction.json (JSValue.obj
          [("status", JSValue.num 400), ("error", JSValue.str "BadRequestError"),
           ("message", JSValue.str "req.body fields validation error"),
           ("detail", JSValue.arr [JSValue.str "invalid"])])], false) := by
  constructor
  · exact validateFn_spec.1 sampleSchema ReqPart.body _ (JSValue.num 2) rfl
  · rw [validateFn_spec.2 sampleSchema ReqPart.body sampleReq [JSValue.str "invalid"] rfl]
    rfl

/-- C4: out of the range 400..511 the derived name is exactly HttpError;
inside the range a known registry name is piped through the case
transformation; every derived name ends with Error and contains neither
an underscore nor a space; 404 maps to NotFoundError, 500 to
InternalServerError. -/
theorem getErrorName_spec :
    (∀ status : Int, status < 400 ∨ status > 511 →
        getErrorName status = some "HttpError") ∧
    (∀ (status : Int) (raw : String), ¬(status < 400 ∨ status > 511) →
        jsLookup status statusNameTable = some raw →
        getErrorName status = some (formatErrorName raw)) ∧
    (∀ (status : Int) (name : String), getErrorName status = some name →
        errorNameOk name = true) ∧
    getErrorName 404 = some "NotFoundError" ∧
    getErrorName 500 = some "InternalServerError" := by
  refine ⟨?_, ?_, ?_, by decide, by decide⟩
  · intro status h
    unfold getErrorName
    rw [if_pos h]
  · intro status raw hr hl
    unfold getErrorName
    rw [if_neg hr, hl]
    rfl
  · intro status name h
    unfold getErrorName at h
    split at h
    · cases h
      decide
    · rcases Option.map_eq_some'.mp h with ⟨raw, hl, hname⟩
      subst hname
      exact jsLookup_all_of (fun s => errorNameOk (formatErrorName s))
        statusNameTable (by decide) status raw hl

/-- C4 witness: status 200 is out of range and yields HttpError, status
404 is in range with the registry name NOT FOUND joined by an underscore,
and the name NotFoundError passes the shape check. -/
theorem getErrorName_spec_witness :
    getErrorName 200 = some "HttpError" ∧
    getErrorName 404 = some (formatErrorName "NOT_FOUND") ∧
    errorNameOk "NotFoundError" = true :=
  ⟨getErrorName_spec.1 200 (Or.inl (by decide)),
   getErrorName_spec.2.1 404 "NOT_FOUND" (by decide) (by decide),
   getErrorName_spec.2.2.1 404 "NotFoundError" (by decide)⟩

/-- C5 counterexample: constructing an HttpError at status 419, which lies
inside 400..511 but has no registry entry, throws (the name lookup yields
undefined and the toLowerCase call fails), so construction does not always
yield an error value. -/
theorem httpError_make_419_throws :
    HttpError.make (BodyMessage.str "boom") 419 JSValue.undef = none := rfl

/-- C5 amended: for every message, detail, and status that is outside
400..511 or has a registry entry, construction succeeds and yields an
error value whose name is derived from the status. -/
theorem httpError_make_known_status (msg : BodyMessage) (status : Int)
    (detail : JSValue)
    (h : status < 400 ∨ status > 511 ∨
        (jsLookup status statusNameTable).isSome = true) :
    ∃ e : HttpError, HttpError.make msg status detail = some e ∧
      getErrorName status = some e.name := by
  have hname : (getErrorName status).isSome = true := by
    unfold getErrorName
    by_cases hr : status < 400 ∨ status > 511
    · rw [if_pos hr]
      rfl
    · rw [if_neg hr]
      rcases h with h | h | h
      · exact absurd (Or.inl h) hr
      · exact absurd (Or.inr h) hr
      · rcases Option.isSome_iff_exists.mp h with ⟨raw, hraw⟩
        rw [hraw]
        rfl
  rcases Option.isSome_iff_exists.mp hname with ⟨nm, hnm⟩
  have hmake : HttpError.make msg status detail =
      some { msg := msg, status := status, detail := detail, name := nm,
             message := match msg with | .str s => s | .list _ => nm } := by
    unfold HttpError.make
    rw [hnm]
    rfl
  exact ⟨_, hmake, hnm⟩

/-- C5 amended witness: construction at the known status 404 succeeds with
the derived name. -/
theorem httpError_make_known_status_witness :
    ∃ e : HttpError, HttpError.make (BodyMessage.str "x") 404 JSValue.undef = some e ∧
      getErrorName 404 = some e.name :=
  httpError_make_known_status (BodyMessage.str "x") 404 JSValue.undef
    (Or.inr (Or.inr rfl))

/-- C7 counterexample: in the cited revision the ok constructor does not
default the message to success, so the claimed body is not produced. -/
theorem apiRes_ok_default_message_cex :
    (ApiRes.ok (JSValue.num 1) none).toJson ≠
      JSValue.obj [("status", JSValue.num 200), ("message", JSValue.str "success"),
                   ("result", JSValue.num 1)] := by
  intro h
  simp [ApiRes.ok, ApiRes.make, ApiRes.toJson, JSValue.isUndef] at h

/-- C7 amended: for every defined payload, ok fixes status 200 with the
default message Request processed successfully and created fixes status
201 with the default message Resource created successfully, the result
being the payload. -/
theorem apiRes_ok_created_toJson (x : JSValue) (hx : x.isUndef = false) :
    (ApiRes.ok x none).toJson =
      JSValue.obj [("status", JSValue.num 200),
        ("message", JSValue.str "Request processed successfully"), ("result", x)] ∧
    (ApiRes.created x none).toJson =
      JSValue.obj [("status", JSValue.num 201),
        ("message", JSValue.str "Resource created successfully"), ("result", x)] := by
  constructor <;> simp [ApiRes.ok, ApiRes.created, ApiRes.make, ApiRes.toJson, hx]

/-- C7 amended witness: the constructors evaluated at the number 7. -/
theorem apiRes_ok_created_toJson_witness :
    (ApiRes.ok (JSValue.num 7) none).toJson =
      JSValue.obj [("status", JSValue.num 200),
        ("message", JSValue.str "Request processed successfully"),
        ("result", JSValue.num 7)] ∧
    (ApiRes.created (JSValue.num 7) none).toJson =
      JSValue.obj [("status", JSValue.num 201),
        ("message", JSValue.str "Resource created successfully"),
        ("result", JSValue.num 7)] :=
  apiRes_ok_created_toJson (JSValue.num 7) rfl

/-- C8: paginated fixes status 200 and its result merges the meta fields
with a data field holding the payload; in particular the cited instance
produces the merged result object. -/
theorem apiRes_paginated_spec :
    (∀ (data : JSValue) (meta : List (String × JSValue)) (message : Option String),
        (ApiRes.paginated data meta message).status = 200 ∧
        (ApiRes.paginated data meta message).result =
          JSValue.obj (setField meta "data" data)) ∧
    (ApiRes.paginated (JSValue.obj [("a", JSValue.num 1)]) [("page", JSValue.num 1)]
        (some "msg")).toJson =
      JSValue.obj [("status", JSValue.num 200), ("message", JSValue.str "msg"),
        ("result", JSValue.obj
          [("page", JSValue.num 1), ("data", JSValue.obj [("a", JSValue.num 1)])])] :=
  ⟨fun data meta message => ⟨rfl, rfl⟩, rfl⟩

/-- C9: resolving a controller member that is missing or not invocable
fails with the configuration error naming the key and the controller, and
an invocable member is returned bound and passed through the wrapper. -/
theorem getMethod_spec :
    (∀ (cls : ControllerCls) (key : String),
        memberLookup key cls.members = none ∨
          (∃ v, memberLookup key cls.members = some (Member.plain v)) →
        getMethod cls key =
          Except.error ("Handler " ++ key ++ " is not a function of " ++ cls.name)) ∧
    (∀ (cls : ControllerCls) (key : String)
        (h : Req → HandlerOutcome Fault RetVal),
        memberLookup key cls.members = some (Member.method h) →
        getMethod cls key = Except.ok (wrapper h)) := by
  constructor
  · intro cls key hcase
    unfold getMethod
    rcases hcase with h | ⟨v, h⟩ <;> rw [h]
  · intro cls key h hm
    unfold getMethod
    rw [hm]

/-- C9 witness: on the sample controller the non-invocable member count
and the missing member absent both fail with the named configuration
error, and the method list is returned wrapped. -/
theorem getMethod_spec_witness :
    getMethod sampleController "count" =
      Except.error "Handler count is not a function of UserController" ∧
    getMethod sampleController "absent" =
      Except.error "Handler absent is not a function of UserController" ∧
    getMethod sampleController "list" =
      Except.ok (wrapper fun _ => HandlerOutcome.ret (RetVal.value (JSValue.num 1))) := by
  refine ⟨?_, ?_, ?_⟩
  · rw [getMethod_spec.1 sampleController "count" (Or.inr ⟨JSValue.num 3, rfl⟩)]
    rfl
  · rw [getMethod_spec.1 sampleController "absent" (Or.inl rfl)]
    rfl
  · exact getMethod_spec.2 sampleController "list" _ rfl

/-- C10: a constructor call with the result argument absent or undefined
stores the empty object as result, so the serialized result is the empty
object rather than undefined. -/
theorem apiRes_default_result :
    (∀ (status : Int) (message : String),
        (ApiRes.make JSValue.undef status message).result = JSValue.obj []) ∧
    (ApiRes.ok JSValue.undef none).toJson =
      JSValue.obj [("status", JSValue.num 200),
        ("message", JSValue.str "Request processed successfully"),
        ("result", JSValue.obj [])] :=
  ⟨fun status message => rfl, rfl⟩

end ExLite


